import Mathlib

/-!
Verification development for the docker-backup-maestro reconciliation daemon.

The definitions below are a shallow embedding of the Go source:

* Template model, Overlay, Hash, CreateConfig: src/internal/template.go
* Label schema, reconciler (initBackupers, dropBackuper, createBackuper,
  updateBackuper, prepareBackuperConfigFor, oneOffContainerFromTmpl):
  src/unnamed/part_002 (first document)
* Engine helpers (getContainerByLabelValue, listContainersWithLabel,
  handleDockerEvent, pullImage, buildImage, createContainer, startBackuper,
  containerIsAlive): src/unnamed/part_004 (first document)
* Config defaults: src/unnamed/part_005 (Config struct with env defaults)

Modelling conventions:

* Go machine integers appear only inside MD5; they are modelled as Nat with
  explicit reduction mod 2^32.
* Go maps are modelled as association lists kept sorted by key (insertL).
  A Go map has unique keys and iteration order is unspecified; every map the
  source iterates over is either consumed order-insensitively (map union,
  JSON encoding after sorting) or the claims do not constrain the order, so
  fixing the sorted order is a sound determinisation.  Nil maps/slices are
  conflated with empty ones; no claim distinguishes them.
* The engine (docker daemon) is modelled as an explicit state
  (EngineState) threaded through each operation, together with the list of
  state-changing engine calls (Call) the operation issues.  List/inspect
  calls do not change engine state and are not recorded.
* The mutually recursive pair createBackuper/updateBackuper from the source
  is total only on some inputs; it is embedded as a single structural
  recursion on an explicit fuel counter (cuRun); fuel exhaustion returns the
  marker error outOfFuel.
-/

namespace DBM

/-! ### String ordering (Go compares strings bytewise; on UTF-8 that is the
code-point lexicographic order) -/

def charListLt : List Char → List Char → Bool
  | _, [] => false
  | [], _ :: _ => true
  | a :: as, b :: bs =>
    if a.toNat < b.toNat then true
    else if b.toNat < a.toNat then false
    else charListLt as bs

def strLtB (a b : String) : Bool := charListLt a.data b.data

def strLeB (a b : String) : Bool := ! strLtB b a

/-! ### Character-list implementations of string primitives (the core
byte-position based versions do not reduce in the kernel) -/

def charsPrefix : List Char → List Char → Bool
  | [], _ => true
  | _ :: _, [] => false
  | a :: as, b :: bs => a == b && charsPrefix as bs

/-- strings.HasPrefix p of s. -/
def strHasPrefix (s p : String) : Bool := charsPrefix p.data s.data

/-- strings.TrimPrefix-style drop of the first n characters. -/
def strDrop (s : String) (n : Nat) : String := String.mk (s.data.drop n)

/-- strings.Contains for a single-character substring. -/
def strContainsChar (s : String) (c : Char) : Bool := s.data.contains c

def splitOnCharAux (sep : Char) : List Char → List Char → List String
  | [], acc => [String.mk acc.reverse]
  | c :: rest, acc =>
    if c == sep then String.mk acc.reverse :: splitOnCharAux sep rest []
    else splitOnCharAux sep rest (c :: acc)

/-- strings.Split with a one-character separator (the empty string splits to
one empty field, as in Go). -/
def splitOnChar (s : String) (sep : Char) : List String :=
  splitOnCharAux sep s.data []

def replChars (pat repl : List Char) : Nat → List Char → List Char
  | 0, s => s
  | _ + 1, [] => []
  | fuel + 1, c :: rest =>
    if charsPrefix pat (c :: rest) && ! pat.isEmpty then
      repl ++ replChars pat repl fuel (rest.drop (pat.length - 1))
    else c :: replChars pat repl fuel rest

/-- strings.ReplaceAll: leftmost non-overlapping occurrences. -/
def strReplaceAll (s pat repl : String) : String :=
  String.mk (replChars pat.data repl.data s.data.length s.data)

def digitsToNat : Nat → List Char → Option Nat
  | acc, [] => some acc
  | acc, c :: rest =>
    if c.toNat ≥ 48 ∧ c.toNat ≤ 57 then digitsToNat (acc * 10 + (c.toNat - 48)) rest
    else none

/-- strconv.Atoi: optional sign then decimal digits. -/
def parseIntQ (s : String) : Option Int :=
  match s.data with
  | [] => none
  | '-' :: rest =>
    if rest.isEmpty then none else (digitsToNat 0 rest).map (fun n => -(n : Int))
  | '+' :: rest =>
    if rest.isEmpty then none else (digitsToNat 0 rest).map (fun n => (n : Int))
  | l => (digitsToNat 0 l).map (fun n => (n : Int))

/-! ### Association lists for Go maps (sorted by key) -/

def lookupL : List (String × String) → String → Option String
  | [], _ => none
  | (k', v) :: rest, k => if k' = k then some v else lookupL rest k

def insertL : List (String × String) → String → String → List (String × String)
  | [], k, v => [(k, v)]
  | (k', v') :: rest, k, v =>
    if k = k' then (k, v) :: rest
    else if strLtB k k' then (k, v) :: (k', v') :: rest
    else (k', v') :: insertL rest k v

def deleteL : List (String × String) → String → List (String × String)
  | [], _ => []
  | (k', v') :: rest, k => if k' = k then deleteL rest k else (k', v') :: deleteL rest k

/-- maps.Copy(dst, src): each entry of src is written into dst, overriding. -/
def mapsCopy (dst src : List (String × String)) : List (String × String) :=
  src.foldl (fun acc kv => insertL acc kv.1 kv.2) dst

/-- Canonical (sorted, deduplicated) form of a pair list; models a Go map
value and the deterministic key order of encoding/json. -/
def sortPairs (m : List (String × String)) : List (String × String) :=
  m.foldl (fun acc kv => insertL acc kv.1 kv.2) []

/-- Ascending insertion sort, modelling slices.Sort on []string. -/
def insertSorted (x : String) : List String → List String
  | [] => [x]
  | y :: ys => if strLeB x y then x :: y :: ys else y :: insertSorted x ys

def sortStr (l : List String) : List String := l.foldr insertSorted []

/-! ### MD5 (Go crypto/md5), over Nat with explicit mod 2^32 -/

/-- Byte sequence of the UTF-8 encoding of one character. -/
def utf8Char (c : Char) : List Nat :=
  let n := c.toNat
  if n < 128 then [n]
  else if n < 2048 then [192 + n / 64, 128 + n % 64]
  else if n < 65536 then [224 + n / 4096, 128 + (n / 64) % 64, 128 + n % 64]
  else [240 + n / 262144, 128 + (n / 4096) % 64, 128 + (n / 64) % 64, 128 + n % 64]

def utf8Bytes (s : String) : List Nat :=
  (s.data.map utf8Char).flatten

/-- 2^32, the modulus of 32-bit arithmetic. -/
def m32 : Nat := 4294967296

def add32 (a b : Nat) : Nat := (a + b) % m32

def rotl32 (x n : Nat) : Nat :=
  ((x <<< n) % m32) + (x >>> (32 - n))

/-- MD5 per-round constants (RFC 1321). -/
def md5K : List Nat :=
  [0xd76aa478, 0xe8c7b756, 0x242070db, 0xc1bdceee,
   0xf57c0faf, 0x4787c62a, 0xa8304613, 0xfd469501,
   0x698098d8, 0x8b44f7af, 0xffff5bb1, 0x895cd7be,
   0x6b901122, 0xfd987193, 0xa679438e, 0x49b40821,
   0xf61e2562, 0xc040b340, 0x265e5a51, 0xe9b6c7aa,
   0xd62f105d, 0x02441453, 0xd8a1e681, 0xe7d3fbc8,
   0x21e1cde6, 0xc33707d6, 0xf4d50d87, 0x455a14ed,
   0xa9e3e905, 0xfcefa3f8, 0x676f02d9, 0x8d2a4c8a,
   0xfffa3942, 0x8771f681, 0x6d9d6122, 0xfde5380c,
   0xa4beea44, 0x4bdecfa9, 0xf6bb4b60, 0xbebfbc70,
   0x289b7ec6, 0xeaa127fa, 0xd4ef3085, 0x04881d05,
   0xd9d4d039, 0xe6db99e5, 0x1fa27cf8, 0xc4ac5665,
   0xf4292244, 0x432aff97, 0xab9423a7, 0xfc93a039,
   0x655b59c3, 0x8f0ccc92, 0xffeff47d, 0x85845dd1,
   0x6fa87e4f, 0xfe2ce6e0, 0xa3014314, 0x4e0811a1,
   0xf7537e82, 0xbd3af235, 0x2ad7d2bb, 0xeb86d391]

/-- MD5 per-round left-rotation amounts. -/
def md5S : List Nat :=
  [7, 12, 17, 22, 7, 12, 17, 22, 7, 12, 17, 22, 7, 12, 17, 22,
   5,  9, 14, 20, 5,  9, 14, 20, 5,  9, 14, 20, 5,  9, 14, 20,
   4, 11, 16, 23, 4, 11, 16, 23, 4, 11, 16, 23, 4, 11, 16, 23,
   6, 10, 15, 21, 6, 10, 15, 21, 6, 10, 15, 21, 6, 10, 15, 21]

def md5MixF (i b c d : Nat) : Nat :=
  if i < 16 then (b &&& c) ||| ((b ^^^ 4294967295) &&& d)
  else if i < 32 then (d &&& b) ||| ((d ^^^ 4294967295) &&& c)
  else if i < 48 then b ^^^ c ^^^ d
  else c ^^^ (b ||| (d ^^^ 4294967295))

def md5G (i : Nat) : Nat :=
  if i < 16 then i
  else if i < 32 then (5 * i + 1) % 16
  else if i < 48 then (3 * i + 5) % 16
  else (7 * i) % 16

def md5Step (block : List Nat) (st : Nat × Nat × Nat × Nat) (i : Nat) :
    Nat × Nat × Nat × Nat :=
  let (a, b, c, d) := st
  let f := md5MixF i b c d
  let g := md5G i
  let tmp := add32 (add32 (add32 a f) (md5K.getD i 0)) (block.getD g 0)
  (d, add32 b (rotl32 tmp (md5S.getD i 0)), b, c)

def md5Block (st : Nat × Nat × Nat × Nat) (block : List Nat) :
    Nat × Nat × Nat × Nat :=
  let (a0, b0, c0, d0) := st
  let (a, b, c, d) := (List.range 64).foldl (md5Step block) st
  (add32 a0 a, add32 b0 b, add32 c0 c, add32 d0 d)

/-- MD5 padding: 0x80, zeros to 56 mod 64, 64-bit little-endian bit length. -/
def md5Pad (msg : List Nat) : List Nat :=
  let len := msg.length
  let z := (119 - len % 64) % 64
  let bitLen := (len * 8) % (2 ^ 64)
  msg ++ [128] ++ List.replicate z 0 ++
    (List.range 8).map (fun i => (bitLen >>> (8 * i)) % 256)

/-- Little-endian 32-bit words of a byte list. -/
def md5Words : List Nat → List Nat
  | b0 :: b1 :: b2 :: b3 :: rest =>
      (b0 + 256 * b1 + 65536 * b2 + 16777216 * b3) :: md5Words rest
  | _ => []

/-- Split a word list into blocks of 16 (a padded message always splits
evenly). -/
def md5Blocks : List Nat → List (List Nat)
  | w0 :: w1 :: w2 :: w3 :: w4 :: w5 :: w6 :: w7 ::
    w8 :: w9 :: w10 :: w11 :: w12 :: w13 :: w14 :: w15 :: rest =>
      [w0, w1, w2, w3, w4, w5, w6, w7, w8, w9, w10, w11, w12, w13, w14, w15] ::
        md5Blocks rest
  | _ => []

def natToHexLE4 (x : Nat) : List Char :=
  let hexDig (n : Nat) : Char := Char.ofNat (if n < 10 then 48 + n else 87 + n)
  ((List.range 4).map (fun i =>
    let byte := (x >>> (8 * i)) % 256
    [hexDig (byte / 16), hexDig (byte % 16)])).flatten

/-- MD5 digest of a string (UTF-8 bytes) as lowercase hex; model of Go
crypto/md5 together with hex.EncodeToString as used by Template.Hash. -/
def md5Hex (s : String) : String :=
  let bytes := md5Pad (utf8Bytes s)
  let blocks := md5Blocks (md5Words bytes)
  let (a, b, c, d) :=
    blocks.foldl md5Block (0x67452301, 0xefcdab89, 0x98badcfe, 0x10325476)
  String.mk (natToHexLE4 a ++ natToHexLE4 b ++ natToHexLE4 c ++ natToHexLE4 d)

set_option maxRecDepth 40000 in
/-- Sanity anchor for the MD5 model: RFC 1321 test vector. -/
theorem md5Hex_abc : md5Hex "abc" = "900150983cd24fb0d6963f7d28e17f72" := by
  rfl

/-! ### Template model (src/internal/template.go) -/

structure DependentBuild where
  context : String := ""
  dockerfile : String := ""
deriving DecidableEq

structure BuildInfo where
  context : String := ""
  dockerfile : String := ""
  dependentBuilds : List DependentBuild := []
deriving DecidableEq

structure Template where
  build : BuildInfo := {}
  image : String := ""
  entrypoint : List String := []
  command : List String := []
  restart : String := ""
  envFile : List String := []
  environment : List (String × String) := []
  volumes : List String := []
  labels : List (String × String) := []
  networks : List String := []
  devices : List String := []
  privileged : Bool := false
  autoRemove : Bool := false
deriving DecidableEq

/-! JSON encoding, modelling Go encoding/json on the Template struct: struct
fields in declaration order under their Go names (the yaml tag on EnvFile does
not affect JSON), map keys sorted, strings escaped as encoding/json does
(including the HTML escapes for angle brackets and ampersand).  Nil and empty
slices/maps are conflated and encoded as null. -/

/-- Literal opening brace. -/
def lb : String := "\x7b"

/-- Literal closing brace. -/
def rb : String := "\x7d"

def hexDigit (n : Nat) : Char := Char.ofNat (if n < 10 then 48 + n else 87 + n)

def jsonEscChar (c : Char) : List Char :=
  if c = '"' then ['\\', '"']
  else if c = '\\' then ['\\', '\\']
  else if c = '\n' then ['\\', 'n']
  else if c = '\r' then ['\\', 'r']
  else if c = '\t' then ['\\', 't']
  else if c.toNat < 32 ∨ c = '<' ∨ c = '>' ∨ c = '&' ∨
          c.toNat = 8232 ∨ c.toNat = 8233 then
    ['\\', 'u', hexDigit (c.toNat / 4096 % 16), hexDigit (c.toNat / 256 % 16),
     hexDigit (c.toNat / 16 % 16), hexDigit (c.toNat % 16)]
  else [c]

def jsonStr (s : String) : String :=
  "\"" ++ String.mk ((s.data.map jsonEscChar).flatten) ++ "\""

def jsonStrList (l : List String) : String :=
  if l.isEmpty then "null"
  else "[" ++ String.intercalate "," (l.map jsonStr) ++ "]"

def jsonStrMap (m : List (String × String)) : String :=
  if m.isEmpty then "null"
  else lb ++ String.intercalate ","
    ((sortPairs m).map (fun kv => jsonStr kv.1 ++ ":" ++ jsonStr kv.2)) ++ rb

def jsonBool (b : Bool) : String := if b then "true" else "false"

def jsonDependentBuild (d : DependentBuild) : String :=
  lb ++ "\"Context\":" ++ jsonStr d.context ++
  ",\"Dockerfile\":" ++ jsonStr d.dockerfile ++ rb

def jsonBuildInfo (b : BuildInfo) : String :=
  lb ++ "\"Context\":" ++ jsonStr b.context ++
  ",\"Dockerfile\":" ++ jsonStr b.dockerfile ++
  ",\"DependentBuilds\":" ++
    (if b.dependentBuilds.isEmpty then "null"
     else "[" ++ String.intercalate "," (b.dependentBuilds.map jsonDependentBuild) ++ "]") ++
  rb

/-- Canonical JSON serialization of a template; only the exported (YAML-level)
fields participate; the internal autoRemove flag is not encoded, exactly as
encoding/json skips the unexported Go field. -/
def jsonTemplate (t : Template) : String :=
  lb ++ "\"Build\":" ++ jsonBuildInfo t.build ++
  ",\"Image\":" ++ jsonStr t.image ++
  ",\"Entrypoint\":" ++ jsonStrList t.entrypoint ++
  ",\"Command\":" ++ jsonStrList t.command ++
  ",\"Restart\":" ++ jsonStr t.restart ++
  ",\"EnvFile\":" ++ jsonStrList t.envFile ++
  ",\"Environment\":" ++ jsonStrMap t.environment ++
  ",\"Volumes\":" ++ jsonStrList t.volumes ++
  ",\"Labels\":" ++ jsonStrMap t.labels ++
  ",\"Networks\":" ++ jsonStrList t.networks ++
  ",\"Devices\":" ++ jsonStrList t.devices ++
  ",\"Privileged\":" ++ jsonBool t.privileged ++
  rb

/-- Template.Hash: MD5 of the canonical JSON serialization, in hex. -/
def Template.Hash (t : Template) : String := md5Hex (jsonTemplate t)

/-- Template.Overlay (src/internal/template.go lines 143-223), translated
statement by statement; tmpl is the base (receiver), other the overlay.  The
devices loop is translated exactly as written in the source, where the append
inside the loop assigns to newTmpl.Networks while reading newTmpl.Devices
(the base devices, unmodified at that point). -/
def Template.Overlay (tmpl other : Template) : Template :=
  let n := tmpl
  let n :=
    if other.build.context.length ≠ 0 ∨ other.build.dockerfile.length ≠ 0 then
      { n with build := other.build,
               image := if other.image.length = 0 then "" else n.image }
    else n
  let n :=
    if other.image.length ≠ 0 then
      { n with image := other.image,
               build := if other.build.context.length = 0 ∧
                           other.build.dockerfile.length = 0 then {} else n.build }
    else n
  let n := if other.entrypoint.length ≠ 0 then { n with entrypoint := other.entrypoint } else n
  let n := if other.command.length ≠ 0 then { n with command := other.command } else n
  let n :=
    if n.environment.isEmpty then { n with environment := other.environment }
    else { n with environment := mapsCopy n.environment other.environment }
  let n := if other.restart.length ≠ 0 then { n with restart := other.restart } else n
  let n := { n with envFile := sortStr (n.envFile ++ other.envFile) }
  let n := { n with volumes := sortStr (other.volumes.foldl
      (fun acc v => if acc.contains v then acc else acc ++ [v]) n.volumes) }
  let n :=
    if n.labels.isEmpty then { n with labels := other.labels }
    else { n with labels := mapsCopy n.labels other.labels }
  let n := { n with networks := sortStr (other.networks.foldl
      (fun acc k => if acc.contains k then acc else acc ++ [k]) n.networks) }
  let n := { n with networks := (other.devices.foldl
      (fun acc k => if n.devices.contains k then acc else n.devices ++ [k]) n.networks) }
  let n := { n with devices := sortStr n.devices }
  let n := if other.privileged then { n with privileged := true } else n
  n

/-! ### Restart policy and create-config (src/internal/template.go) -/

structure RestartPol where
  name : String := ""
  maximumRetryCount : Int := 0
deriving DecidableEq

/-- Model of docker container.ValidateRestartPolicy. -/
def validateRestartPolicy (pol : RestartPol) : Except String Unit :=
  if pol.name = "always" ∨ pol.name = "unless-stopped" ∨ pol.name = "no" then
    if pol.maximumRetryCount ≠ 0 then
      .error "invalid restart policy: maximum retry count can only be used with on-failure"
    else .ok ()
  else if pol.name = "on-failure" then
    if pol.maximumRetryCount < 0 then
      .error "invalid restart policy: maximum retry count cannot be negative"
    else .ok ()
  else if pol.name = "" then .ok ()
  else .error ("invalid restart policy: unknown policy " ++ pol.name)

def parseRestart (restart : String) : Except String RestartPol :=
  let parts := splitOnChar restart ':'
  if parts.length > 2 then
    .error ("restart format invalid. more than one column found " ++ restart)
  else if parts.length = 2 then
    match parseIntQ (parts.getD 1 "") with
    | none => .error ("failed to parse retries number as number " ++ parts.getD 1 "")
    | some r =>
      let pol : RestartPol := { name := parts.getD 0 "", maximumRetryCount := r }
      match validateRestartPolicy pol with
      | .error e => .error e
      | .ok _ => .ok pol
  else
    let pol : RestartPol := { name := parts.getD 0 "" }
    match validateRestartPolicy pol with
    | .error e => .error e
    | .ok _ => .ok pol

structure DeviceMapping where
  pathOnHost : String
  pathInContainer : String
  cgroupPermissions : String := ""
deriving DecidableEq

structure CntrConfig where
  image : String := ""
  env : List String := []
  labels : List (String × String) := []
  entrypoint : List String := []
  cmd : List String := []
deriving DecidableEq

structure HostConfig where
  binds : List String := []
  restartPolicy : RestartPol := {}
  autoRemove : Bool := false
  devices : List DeviceMapping := []
  privileged : Bool := false
deriving DecidableEq

/-- Collaborator model: compose-go dotenv.GetEnvFromFile reads environment
files from the filesystem (an out-of-scope collaborator per the spec
overview).  No claim exercises env_file; the model returns an empty
environment. -/
def getEnvFromFiles (_files : List String) : Except String (List (String × String)) :=
  .ok []

/-- Collaborator model: dotenv.ParseWithLookup over the joined K=V lines of
the map, with process environment lookups.  For benign values (no dollar
expansion, quotes or newlines, the only values the claims use) the parse
returns the map unchanged; the model is that identity. -/
def parseEnvWithLookup (pairs : List (String × String)) : Except String (List (String × String)) :=
  .ok pairs

def envKVList (m : List (String × String)) : List String :=
  (sortPairs m).map (fun kv => kv.1 ++ "=" ++ kv.2)

def parseDevices : List String → Except String (List DeviceMapping)
  | [] => .ok []
  | dev :: rest =>
    let elems := splitOnChar dev ':'
    if elems.length < 2 then
      .error ("device must have one colon (:) minimum: " ++ dev)
    else
      match parseDevices rest with
      | .error e => .error e
      | .ok ds =>
        .ok ({ pathOnHost := elems.getD 0 "", pathInContainer := elems.getD 1 "",
               cgroupPermissions := if elems.length > 2 then elems.getD 2 "" else "" } :: ds)

/-- Template.CreateConfig (src/internal/template.go lines 225-333): build
info (when a build is configured), container config, host config and network
config for the engine. -/
def Template.CreateConfig (t : Template) (tag : String) :
    Except String (Option BuildInfo × CntrConfig × HostConfig × Option (List String)) :=
  match ((if t.envFile.length ≠ 0 then getEnvFromFiles t.envFile else .ok []) :
          Except String (List (String × String))) with
  | .error e => .error ("failed to read env file: " ++ e)
  | .ok fileEnv =>
  match ((if ¬ t.environment.isEmpty then
            match parseEnvWithLookup t.environment with
            | .error e => .error e
            | .ok envMap => .ok (mapsCopy fileEnv envMap)
          else .ok fileEnv) : Except String (List (String × String))) with
  | .error e => .error ("failed to parse env with lookup: " ++ e)
  | .ok environment =>
  let envArr := if environment.length > 0 then envKVList environment else []
  let cntrCfg : CntrConfig :=
    { image := t.image, env := envArr, labels := t.labels,
      entrypoint := t.entrypoint, cmd := t.command }
  match parseRestart t.restart with
  | .error e => .error ("failed to parse restart " ++ t.restart ++ " - " ++ e)
  | .ok rst =>
  match (if t.devices.length > 0 then parseDevices t.devices else .ok []) with
  | .error e => .error e
  | .ok devs =>
  let hostCfg : HostConfig :=
    { binds := t.volumes, restartPolicy := rst, autoRemove := t.autoRemove,
      devices := devs, privileged := t.privileged }
  let netCfg : Option (List String) :=
    if t.networks.length ≠ 0 then some t.networks else none
  if t.build.context.length > 0 ∨ t.build.dockerfile.length > 0 then
    .ok (some t.build,
         { cntrCfg with image := if cntrCfg.image.length = 0 then tag else cntrCfg.image },
         hostCfg, netCfg)
  else
    .ok (none, cntrCfg, hostCfg, netCfg)

/-! ### Label schema and configuration (src/unnamed/part_002, part_005) -/

structure Labels where
  backupName : String
  backupPath : String
  backupNetworks : String
  backupVolume : String
  backupEnvPfx : String
  backuperName : String
  backuperConsistencyHash : String
  forceBackup : String
  restore : String
deriving DecidableEq

/-- prepareLabels (src/unnamed/part_002 lines 33-48). -/
def prepareLabels (pfx : String) : Labels :=
  let backup := pfx ++ ".backup"
  { backupName := backup ++ ".name"
    backupPath := backup ++ ".path"
    backupNetworks := backup ++ ".networks"
    backupVolume := backup ++ ".volume"
    backupEnvPfx := backup ++ ".env."
    backuperName := pfx ++ ".backuper" ++ ".name"
    backuperConsistencyHash := pfx ++ ".backuper" ++ ".consistencyhash"
    forceBackup := pfx ++ ".forcebackup"
    restore := pfx ++ ".restore" }

/-- Config (src/unnamed/part_005), with the environment defaults already
expanded for the default label prefix. -/
structure Config where
  bindToPath : String := "/data"
  labelPfx : String := "docker-backup-maestro"
  backupNameFormat : String := "docker-backup-maestro.backup_{name}"
  restoreNameFormat : String := "docker-backup-maestro.restore_{name}"
  forceNameFormat : String := "docker-backup-maestro.forcebackup_{name}"
  backupTag : String := "docker-backup-maestro.backup"
  restoreTag : String := "docker-backup-maestro.restore"
  forceTag : String := "docker-backup-maestro.forcebackup"
  alwaysRw : Bool := false
  builderV1 : Bool := false
deriving DecidableEq

structure UserTemplates where
  backuper : Template := {}
  restore : Template := {}
  forceBackup : Template := {}
deriving DecidableEq

structure ContainerManager where
  tmpls : UserTemplates
  conf : Config
  labels : Labels
deriving DecidableEq

def NewContainerManager (userCfg : UserTemplates) (conf : Config) : ContainerManager :=
  { tmpls := userCfg, conf := conf, labels := prepareLabels conf.labelPfx }

/-! ### Engine model

The docker daemon is an explicit state: the containers (with their labels and
state string), the local image cache (repo tag lists) and the scripted pull
progress stream.  Each state-changing engine call is recorded as a Call. -/

structure Cntr where
  id : String
  labels : List (String × String)
  state : String
deriving DecidableEq

structure PullLine where
  message : String := ""
  status : String := ""
  id : String := ""
  progress : String := ""
  error : String := ""
deriving DecidableEq

structure EngineState where
  cntrs : List Cntr := []
  images : List (List String) := []
  pullLines : List PullLine := []
deriving DecidableEq

inductive Call where
  | stop (id : String)
  | remove (id : String)
  | create (id : String)
  | start (id : String)
  | pull (tag : String)
  | build (tag : String)
deriving DecidableEq

instance {α β : Type} [DecidableEq α] [DecidableEq β] : DecidableEq (Except α β) := fun a b =>
  match a, b with
  | .ok x, .ok y =>
    if h : x = y then .isTrue (by rw [h]) else .isFalse (by intro hc; cases hc; exact h rfl)
  | .error x, .error y =>
    if h : x = y then .isTrue (by rw [h]) else .isFalse (by intro hc; cases hc; exact h rfl)
  | .ok _, .error _ => .isFalse (by intro hc; cases hc)
  | .error _, .ok _ => .isFalse (by intro hc; cases hc)

/-- A container reported by ContainerList without the All option: docker
lists only containers that are up (running, restarting or paused). -/
def listedState (st : String) : Bool :=
  st == "running" || st == "restarting" || st == "paused"

/-- ContainerList filtered by presence of a label key. -/
def containersWithLabelKey (s : EngineState) (key : String) (all : Bool) : List Cntr :=
  s.cntrs.filter (fun c => (all || listedState c.state) && (lookupL c.labels key).isSome)

/-- ContainerList filtered by a label key=value pair. -/
def containersWithLabelKV (s : EngineState) (key value : String) (all : Bool) : List Cntr :=
  s.cntrs.filter (fun c =>
    (all || listedState c.state) && (lookupL c.labels key == some value))

def containerStop (s : EngineState) (id : String) : EngineState :=
  { s with cntrs := s.cntrs.map (fun c => if c.id = id then { c with state := "exited" } else c) }

def containerRemove (s : EngineState) (id : String) : EngineState :=
  { s with cntrs := s.cntrs.filter (fun c => c.id ≠ id) }

def containerStart (s : EngineState) (id : String) : EngineState :=
  { s with cntrs := s.cntrs.map (fun c => if c.id = id then { c with state := "running" } else c) }

/-- ContainerCreate: the engine assigns an id (modelled deterministically
from the requested container name) and registers the container with the
labels of the submitted config, in the created state. -/
def containerCreate (s : EngineState) (cntrName : String) (labels : List (String × String)) :
    String × EngineState :=
  let id := "id:" ++ cntrName
  (id, { s with cntrs := s.cntrs ++ [{ id := id, labels := labels, state := "created" }] })

/-- getContainerLabel (src/unnamed/part_004 lines 418-424): empty string when
the label is absent (the Go map zero value). -/
def getContainerLabel (c : Cntr) (label : String) : String :=
  (lookupL c.labels label).getD ""

/-- containerIsAlive (src/unnamed/part_004 lines 426-428). -/
def containerIsAlive : Option Cntr → Bool
  | none => false
  | some c => c.state == "running" || c.state == "restarting"

/-- getContainerByLabelValue (src/unnamed/part_004 lines 111-133): at most
one container may carry the pair; more than one is an error. -/
def getContainerByLabelValue (s : EngineState) (label value : String) (searchAll : Bool) :
    Except String (Option Cntr) :=
  let cntrs := containersWithLabelKV s label value searchAll
  if cntrs.length > 1 then
    .error ("containers with label " ++ label ++ "=" ++ value ++ " more than 1: " ++
            toString cntrs.length)
  else .ok cntrs.head?

/-- listContainersWithLabel (src/unnamed/part_004 lines 48-57). -/
def listContainersWithLabel (s : EngineState) (label : String) (searchAll : Bool) : List Cntr :=
  containersWithLabelKey s label searchAll

/-! ### Image procurement (src/unnamed/part_004) -/

/-- First decoded pull-progress line whose error field is non-empty; the
decode loop aborts there with that message. -/
def firstPullError : List PullLine → Option String
  | [] => none
  | l :: rest => if l.error.length > 0 then some l.error else firstPullError rest

/-- pullImage (src/unnamed/part_004 lines 167-233): normalize the tag, skip
when cached (unless force), otherwise stream the pull and fail on an error
line. -/
def pullImage (s : EngineState) (tag : String) (force : Bool) :
    Except String Unit × EngineState × List Call :=
  let tag := if strContainsChar tag ':' then tag else tag ++ ":latest"
  let needPull := ¬ s.images.any (fun summ => summ.contains tag)
  if ¬ force ∧ ¬ needPull then (.ok (), s, [])
  else
    match firstPullError s.pullLines with
    | some e => (.error e, s, [.pull tag])
    | none => (.ok (), { s with images := s.images ++ [[tag]] }, [.pull tag])

/-- buildImage for a build without dependent builds (the recursive calls of
the source always construct BuildInfo values with no dependent builds, so the
recursion is at most one level deep; buildImage below layers the dependent
loop on top of this). -/
def buildImageNoDeps (s : EngineState) (tag : String) (force : Bool) :
    Except String Unit × EngineState × List Call :=
  let tag := if strContainsChar tag ':' then tag else tag ++ ":latest"
  let needBuild := ¬ s.images.any (fun summ => summ.contains tag)
  if ¬ needBuild ∧ ¬ force then (.ok (), s, [])
  else (.ok (), { s with images := s.images ++ [[tag]] }, [.build tag])

def buildDeps (deps : List DependentBuild) (force : Bool) (s : EngineState) :
    Except String Unit × EngineState × List Call :=
  match deps with
  | [] => (.ok (), s, [])
  | d :: rest =>
    match buildImageNoDeps s "dep" force with
    | (.error e, s', calls) =>
      (.error ("dependency (" ++ d.context ++ ") build failed: " ++ e), s', calls)
    | (.ok _, s', calls) =>
      let (r, s'', more) := buildDeps rest force s'
      (r, s'', calls ++ more)

/-- buildImage (src/unnamed/part_004 lines 235-380): cache check, recursive
dependent builds, then the owner build. -/
def buildImage (s : EngineState) (bi : BuildInfo) (tag : String) (force : Bool) :
    Except String Unit × EngineState × List Call :=
  let ntag := if strContainsChar tag ':' then tag else tag ++ ":latest"
  let needBuild := ¬ s.images.any (fun summ => summ.contains ntag)
  if ¬ needBuild ∧ ¬ force then (.ok (), s, [])
  else
    match buildDeps bi.dependentBuilds force s with
    | (.error e, s', calls) => (.error e, s', calls)
    | (.ok _, s', calls) =>
      (.ok (), { s' with images := s'.images ++ [[ntag]] }, calls ++ [.build ntag])

/-- createContainer (src/unnamed/part_004 lines 135-165): create-config,
build or pull the image, then ContainerCreate. -/
def createContainer (s : EngineState) (cfg : Template) (tag cntrName : String) :
    Except String String × EngineState × List Call :=
  match cfg.CreateConfig tag with
  | .error e => (.error e, s, [])
  | .ok (biOpt, cntrCfg, _hostCfg, _netCfg) =>
    let step :=
      match biOpt with
      | some bi => buildImage s bi cntrCfg.image false
      | none => pullImage s cntrCfg.image false
    match step with
    | (.error e, s', calls) => (.error e, s', calls)
    | (.ok _, s', calls) =>
      let (id, s'') := containerCreate s' cntrName cntrCfg.labels
      (.ok id, s'', calls ++ [.create id])

/-- startBackuper (src/unnamed/part_004 lines 382-394). -/
def startBackuper (cm : ContainerManager) (s : EngineState) (cfg : Template) (cntrName : String) :
    Except String Unit × EngineState × List Call :=
  match createContainer s cfg cm.conf.backupTag cntrName with
  | (.error e, s', calls) => (.error e, s', calls)
  | (.ok id, s', calls) => (.ok (), containerStart s' id, calls ++ [.start id])

/-! ### Reconciler (src/unnamed/part_002) -/

/-- dropBackuper (src/unnamed/part_002 lines 141-165): NOTE the lookup passes
searchAll = false, so only an up (running/restarting/paused) companion is
found; a missing companion is logged and skipped. -/
def dropBackuper (cm : ContainerManager) (s : EngineState) (name : String) :
    Except String Unit × EngineState × List Call :=
  match getContainerByLabelValue s cm.labels.backuperName name false with
  | .error e => (.error e, s, [])
  | .ok none => (.ok (), s, [])
  | .ok (some c) =>
    (.ok (), containerRemove (containerStop s c.id) c.id, [.stop c.id, .remove c.id])

/-- pathJoin: Go path.Join for the clean inputs used here (no dot segments,
no duplicate separators). -/
def pathJoin (a b : String) : String :=
  if a = "" then b else if b = "" then a else a ++ "/" ++ b

/-- prepareBackuperConfigFor (src/unnamed/part_002 lines 236-310).  Multi-path
labels first (these honor AlwaysRw); if none, the single-form path label
(which consults only rw, not AlwaysRw, as in the source); then verbatim extra
volume labels, forwarded env labels, and the comma-separated networks
label. -/
def prepareBackuperConfigFor (cm : ContainerManager) (s : EngineState)
    (name : String) (rw : Bool) : Except String Template :=
  match getContainerByLabelValue s cm.labels.backupName name true with
  | .error e => .error e
  | .ok none => .error ("backup container '" ++ name ++ "' not found")
  | .ok (some cntr) =>
    let mpVolumes := cntr.labels.foldl (fun acc kv =>
      if strHasPrefix kv.1 (cm.labels.backupPath ++ ".") then
        let dirName := strDrop kv.1 (cm.labels.backupPath ++ ".").length
        let bind := kv.2 ++ ":" ++ pathJoin cm.conf.bindToPath dirName
        let bind := if ¬ cm.conf.alwaysRw ∧ ¬ rw then bind ++ ":ro" else bind
        acc ++ [bind]
      else acc) []
    let volumes :=
      if mpVolumes.isEmpty then
        let hostPathToBind := getContainerLabel cntr cm.labels.backupPath
        if hostPathToBind.length ≠ 0 then
          let bind := hostPathToBind ++ ":" ++ cm.conf.bindToPath
          let bind := if ¬ rw then bind ++ ":ro" else bind
          [bind]
        else []
      else mpVolumes
    let volumes := volumes ++ cntr.labels.foldl (fun acc kv =>
      if strHasPrefix kv.1 cm.labels.backupVolume then acc ++ [kv.2] else acc) []
    let environment := cntr.labels.foldl (fun acc kv =>
      if strHasPrefix kv.1 cm.labels.backupEnvPfx then
        insertL acc (strDrop kv.1 cm.labels.backupEnvPfx.length) kv.2
      else acc) []
    let networksLabel := getContainerLabel cntr cm.labels.backupNetworks
    let networks := if networksLabel.length > 0 then splitOnChar networksLabel ',' else []
    .ok { labels := [(cm.labels.backuperName, name)], volumes := volumes,
          environment := environment, networks := networks }

/-- The name validation of createBackuper (src/unnamed/part_002 line 170):
regexp MustCompile of caret [a-zA-Z0-9-._]* dollar; note the star, the empty
string matches. -/
def validName (name : String) : Bool :=
  name.data.all (fun c => c.isAlphanum || c = '-' || c = '.' || c = '_')

/-- Marker result for fuel exhaustion of the embedded unbounded mutual
recursion between createBackuper and updateBackuper. -/
def outOfFuel : String := "model: recursion fuel exhausted"

inductive CU where
  | create (name : String)
  | update (toBackup backuper : Cntr)

/-- The mutually recursive pair createBackuper (src/unnamed/part_002 lines
167-205) and updateBackuper (lines 207-234), embedded as one structural
recursion on fuel.  Each nested call consumes one unit of fuel. -/
def cuRun (cm : ContainerManager) : Nat → CU → EngineState →
    Except String Unit × EngineState × List Call
  | 0, _, s => (.error outOfFuel, s, [])
  | fuel + 1, .create name, s =>
    if ¬ validName name then (.ok (), s, [])
    else
      match getContainerByLabelValue s cm.labels.backuperName name true with
      | .error e => (.error e, s, [])
      | .ok (some existingBackuper) =>
        (match getContainerByLabelValue s cm.labels.backupName name true with
         | .error e => (.error e, s, [])
         | .ok none =>
           -- the source dereferences *existingBackup without a nil check;
           -- a missing target here is a nil-pointer panic
           (.error "panic: nil dereference of existing backup container", s, [])
         | .ok (some existingBackup) =>
           cuRun cm fuel (.update existingBackup existingBackuper) s)
      | .ok none =>
        match prepareBackuperConfigFor cm s name false with
        | .error e => (.error e, s, [])
        | .ok cfg =>
          let cfg := cm.tmpls.backuper.Overlay cfg
          let hash := cfg.Hash
          let cfg := { cfg with labels :=
            (insertL cfg.labels cm.labels.backuperConsistencyHash hash) }
          let cntrName := strReplaceAll cm.conf.backupNameFormat "{name}" name
          startBackuper cm s cfg cntrName
  | fuel + 1, .update toBackup backuper, s =>
    let backupName := (lookupL toBackup.labels cm.labels.backupName).getD ""
    match prepareBackuperConfigFor cm s backupName false with
    | .error e => (.error e, s, [])
    | .ok cfg =>
      let cfg := cm.tmpls.backuper.Overlay cfg
      let hash := cfg.Hash
      let backuperHash := (lookupL backuper.labels cm.labels.backuperConsistencyHash).getD ""
      if hash = backuperHash then (.ok (), s, [])
      else
        match dropBackuper cm s backupName with
        | (.error e, s', calls) =>
          (.error ("failed to drop backuper " ++ backupName ++ ": " ++ e), s', calls)
        | (.ok _, s', calls) =>
          let (r, s'', more) := cuRun cm fuel (.create backupName) s'
          (r, s'', calls ++ more)

def createBackuper (cm : ContainerManager) (s : EngineState) (name : String) (fuel : Nat) :
    Except String Unit × EngineState × List Call :=
  cuRun cm fuel (.create name) s

def updateBackuper (cm : ContainerManager) (s : EngineState) (toBackup backuper : Cntr)
    (fuel : Nat) : Except String Unit × EngineState × List Call :=
  cuRun cm fuel (.update toBackup backuper) s

/-- The first loop of initBackupers (src/unnamed/part_002 lines 99-116): drop
every companion whose name no longer matches a running target; a drop error
aborts. -/
def dropPhase (cm : ContainerManager) (toBackups : List Cntr) :
    List Cntr → EngineState → Except String Unit × EngineState × List Call
  | [], s => (.ok (), s, [])
  | bk :: rest, s =>
    let backupName := (lookupL bk.labels cm.labels.backuperName).getD ""
    let found := toBackups.any (fun tb =>
      (lookupL tb.labels cm.labels.backupName).getD "" == backupName)
    if found then dropPhase cm toBackups rest s
    else
      match dropBackuper cm s backupName with
      | (.error e, s', calls) => (.error e, s', calls)
      | (.ok _, s', calls) =>
        let (r, s'', more) := dropPhase cm toBackups rest s'
        (r, s'', calls ++ more)

/-- The second loop of initBackupers (src/unnamed/part_002 lines 118-136):
for each running target, update the matching companion (the update result is
DISCARDED, source line 125) or create a missing one (a create error
aborts). -/
def syncPhase (cm : ContainerManager) (backupers : List Cntr) (fuel : Nat) :
    List Cntr → EngineState → Except String Unit × EngineState × List Call
  | [], s => (.ok (), s, [])
  | tb :: rest, s =>
    let backupName := (lookupL tb.labels cm.labels.backupName).getD ""
    match backupers.find? (fun bk =>
      (lookupL bk.labels cm.labels.backuperName).getD "" == backupName) with
    | some bk =>
      let (_discarded, s', calls) := updateBackuper cm s tb bk fuel
      let (r, s'', more) := syncPhase cm backupers fuel rest s'
      (r, s'', calls ++ more)
    | none =>
      match createBackuper cm s backupName fuel with
      | (.error e, s', calls) => (.error e, s', calls)
      | (.ok _, s', calls) =>
        let (r, s'', more) := syncPhase cm backupers fuel rest s'
        (r, s'', calls ++ more)

/-- initBackupers (src/unnamed/part_002 lines 88-139). -/
def initBackupers (cm : ContainerManager) (s : EngineState) (fuel : Nat) :
    Except String Unit × EngineState × List Call :=
  let backupers := listContainersWithLabel s cm.labels.backuperName true
  let toBackups := listContainersWithLabel s cm.labels.backupName false
  match dropPhase cm toBackups backupers s with
  | (.error e, s', calls) => (.error e, s', calls)
  | (.ok _, s', calls) =>
    let (r, s'', more) := syncPhase cm backupers fuel toBackups s'
    (r, s'', calls ++ more)

/-! ### Event loop dispatch (src/unnamed/part_004 lines 59-67) -/

structure EventMsg where
  action : String
  attributes : List (String × String)

/-- handleDockerEvent: the source compares event.Action against the SDK
constants events.ActionCreate (the string create) and events.ActionDestroy
(the string destroy); all other actions fall through with nil. -/
def handleDockerEvent (cm : ContainerManager) (s : EngineState) (ev : EventMsg) (fuel : Nat) :
    Except String Unit × EngineState × List Call :=
  if ev.action = "create" then
    createBackuper cm s ((lookupL ev.attributes cm.labels.backupName).getD "") fuel
  else if ev.action = "destroy" then
    dropBackuper cm s ((lookupL ev.attributes cm.labels.backupName).getD "")
  else (.ok (), s, [])

/-! ### One-off runner (src/unnamed/part_002 lines 312-374) -/

/-- The body of oneOffContainerFromTmpl after the companion lookup (factored
out so the lookup result can be reasoned about separately): stop the
companion if present, derive the rw config, swap the identifying label for
the one-off marker, overlay onto the variant template, set autoRemove,
create and start the one-off, wait for its die event (modelled as the
success path of waitForStop), then restart the companion iff it was running
or restarting before. -/
def oneOffTail (cm : ContainerManager) (s : EngineState) (name : String)
    (tmpl : Template) (tag cntrNameFormat : String) (backuperCntr : Option Cntr) :
    Except String Unit × EngineState × List Call :=
  let wasRunning := containerIsAlive backuperCntr
  let (s, stopCalls) :=
    match backuperCntr with
    | some c => (containerStop s c.id, [Call.stop c.id])
    | none => (s, ([] : List Call))
  match prepareBackuperConfigFor cm s name true with
  | .error e => (.error ("failed to generate config for " ++ name ++ " - " ++ e), s, stopCalls)
  | .ok oneOffCfg =>
    let oneOffCfg := { oneOffCfg with labels :=
      (insertL (deleteL oneOffCfg.labels cm.labels.backuperName) tag name) }
    let oneOffCfg := tmpl.Overlay oneOffCfg
    let oneOffCfg := { oneOffCfg with autoRemove := true }
    let cntrName := strReplaceAll cntrNameFormat "{name}" name
    match createContainer s oneOffCfg tag cntrName with
    | (.error e, s', calls) => (.error e, s', stopCalls ++ calls)
    | (.ok cntrId, s', calls) =>
      let s'' := containerStart s' cntrId
      let base := stopCalls ++ calls ++ [Call.start cntrId]
      if wasRunning then
        match backuperCntr with
        | some c => (.ok (), containerStart s'' c.id, base ++ [Call.start c.id])
        | none => (.ok (), s'', base)
      else (.ok (), s'', base)

/-- oneOffContainerFromTmpl (src/unnamed/part_002 lines 312-374): companion
lookup (live containers only), then the stop/compose/run/restart tail. -/
def oneOffContainerFromTmpl (cm : ContainerManager) (s : EngineState) (name : String)
    (tmpl : Template) (tag cntrNameFormat : String) :
    Except String Unit × EngineState × List Call :=
  match getContainerByLabelValue s cm.labels.backuperName name false with
  | .error e => (.error e, s, [])
  | .ok backuperCntr => oneOffTail cm s name tmpl tag cntrNameFormat backuperCntr

/-! ### Concrete fixtures for the claims (default configuration, the user
templates of the repository's own tests: an alpine backuper) -/

/-- A manager with the default configuration, backuper template image alpine
and restore template image restore (the end-to-end scenarios of the spec). -/
def cmA : ContainerManager :=
  NewContainerManager
    { backuper := { image := "alpine" }, restore := { image := "restore" },
      forceBackup := { image := "alpine" } }
    {}

/-- A target (backup) container with the given name and path label. -/
def targetC (name path : String) : Cntr :=
  { id := "backupid" ++ name
    labels := [("docker-backup-maestro.backup.name", name),
               ("docker-backup-maestro.backup.path", path)]
    state := "running" }

/-- A companion (backuper) container with the given stored consistency hash
and container state. -/
def companionC (name hash st : String) : Cntr :=
  { id := "backuperid" ++ name
    labels := [("docker-backup-maestro.backuper.consistencyhash", hash),
               ("docker-backup-maestro.backuper.name", name)]
    state := st }

/-- One running target named example, its alpine image cached, no
companion. -/
def s1 : EngineState :=
  { cntrs := [targetC "example" "/host"], images := [["alpine:latest"]] }

set_option maxRecDepth 100000 in
/-- Claim C1: the spec maps event action start to create_backuper and die to
drop_backuper.  The source handler compares against the SDK constants
ActionCreate (create) and ActionDestroy (destroy) instead: at the failing
input, a start event for a live target with no companion, no reconciliation
call is issued and the state is unchanged; same for die; it is a create
event that triggers createBackuper (companion created and started). -/
theorem c1_event_dispatch_eval :
    handleDockerEvent cmA s1
        { action := "start", attributes := [("docker-backup-maestro.backup.name", "example")] } 5
      = (.ok (), s1, []) ∧
    handleDockerEvent cmA s1
        { action := "die", attributes := [("docker-backup-maestro.backup.name", "example")] } 5
      = (.ok (), s1, []) ∧
    (handleDockerEvent cmA s1
        { action := "create", attributes := [("docker-backup-maestro.backup.name", "example")] } 5).2.2
      = [.create "id:docker-backup-maestro.backup_example",
         .start "id:docker-backup-maestro.backup_example"] := by
  refine ⟨?_, ?_, ?_⟩ <;> decide

set_option maxRecDepth 100000 in
/-- Claim C2: the spec says every sequence field of a.Overlay(b), devices
included, is the duplicate-free union sorted ascending, and that the hash is
invariant under permutations of either input's sequence fields.  In the
source the devices loop assigns its append to newTmpl.Networks: at the
failing input the overlay of devices [x] with devices [d] leaves devices as
[x] (union [d, x] expected) and corrupts networks to [x, d] (empty
expected); env_file is concatenated without deduplication; and permuting
the devices of the second input changes the hash. -/
theorem c2_overlay_devices_eval :
    (Template.Overlay { devices := ["x"] } { devices := ["d"] }).devices = ["x"] ∧
    (Template.Overlay { devices := ["x"] } { devices := ["d"] }).networks = ["x", "d"] ∧
    (Template.Overlay { envFile := ["e"] } { envFile := ["e"] }).envFile = ["e", "e"] ∧
    Template.Hash (Template.Overlay { devices := ["x"] } { devices := ["d", "e"] }) ≠
      Template.Hash (Template.Overlay { devices := ["x"] } { devices := ["e", "d"] }) := by
  refine ⟨?_, ?_, ?_, ?_⟩ <;> decide

/-- Claim C3: the consistency hash is a pure function of the exported
(YAML-level) fields only; two templates with equal exported fields, in
particular two differing only in the internal autoRemove flag, have equal
hashes (and the digest is deterministic, being a function). -/
theorem c3_hash_exported_only (t1 t2 : Template)
    (h1 : t1.build = t2.build) (h2 : t1.image = t2.image)
    (h3 : t1.entrypoint = t2.entrypoint) (h4 : t1.command = t2.command)
    (h5 : t1.restart = t2.restart) (h6 : t1.envFile = t2.envFile)
    (h7 : t1.environment = t2.environment) (h8 : t1.volumes = t2.volumes)
    (h9 : t1.labels = t2.labels) (h10 : t1.networks = t2.networks)
    (h11 : t1.devices = t2.devices) (h12 : t1.privileged = t2.privileged) :
    t1.Hash = t2.Hash := by
  cases t1
  cases t2
  simp only at h1 h2 h3 h4 h5 h6 h7 h8 h9 h10 h11 h12
  subst h1 h2 h3 h4 h5 h6 h7 h8 h9 h10 h11 h12
  rfl

/-- Witness for C3: concrete templates that differ only in autoRemove hash
identically. -/
theorem c3_hash_exported_only_witness :
    Template.Hash { image := "alpine", autoRemove := true }
      = Template.Hash { image := "alpine", autoRemove := false } :=
  c3_hash_exported_only _ _ rfl rfl rfl rfl rfl rfl rfl rfl rfl rfl rfl rfl

/-- A stopped companion for example with stored hash h0; no target. -/
def s5stop : EngineState := { cntrs := [companionC "example" "h0" "exited"] }

/-- The same companion, running. -/
def s5run : EngineState := { cntrs := [companionC "example" "h0" "running"] }

set_option maxRecDepth 100000 in
/-- Claim C5: the spec says drop_backuper locates the companion in any state
(running or stopped) and stops then removes it.  The lookup in the source
passes searchAll = false, so at the failing input, a stopped companion, the
container is not found: dropBackuper logs, returns nil, issues no engine
call and the companion survives.  A running companion is stopped and
removed. -/
theorem c5_drop_skips_stopped_companion :
    dropBackuper cmA s5stop "example" = (.ok (), s5stop, []) ∧
    dropBackuper cmA s5run "example"
      = (.ok (), { cntrs := [] },
         [.stop "backuperidexample", .remove "backuperidexample"]) := by
  refine ⟨?_, ?_⟩ <;> decide

set_option maxRecDepth 100000 in
/-- Claim C6 counterexample: the claim says any name failing the pattern
[A-Za-z0-9._-]+ (at least one character), the empty string included, makes
create_backuper log and return nil without error.  The source regex is
caret [a-zA-Z0-9-._]* dollar with a star: the empty string passes the check,
createBackuper proceeds to the engine lookups, and on a state with no
target it returns an error, not nil. -/
theorem c6_empty_name_not_rejected :
    createBackuper cmA {} "" 5
      = (.error "backup container '' not found", {}, []) := by
  decide

/-- Claim C6 as amended: the validation only rejects names containing a
character outside [A-Za-z0-9._-]; such a name makes createBackuper log and
return nil with no engine call for every manager, state and fuel; the empty
string instead passes the check and proceeds. -/
theorem c6_invalid_chars_noop (cm : ContainerManager) (s : EngineState)
    (name : String) (fuel : Nat) (h : validName name = false) :
    createBackuper cm s name (fuel + 1) = (.ok (), s, []) := by
  simp [createBackuper, cuRun, h]

/-- Witness for the amended C6 at a name containing a space. -/
theorem c6_invalid_chars_noop_witness :
    validName "a b" = false ∧ createBackuper cmA {} "a b" 1 = (.ok (), {}, []) :=
  ⟨by decide, c6_invalid_chars_noop cmA {} "a b" 0 (by decide)⟩

/-- A manager with ALWAYS_RW set. -/
def cmRw : ContainerManager :=
  NewContainerManager { backuper := { image := "alpine" } } { alwaysRw := true }

/-- One running target with the single-form path label. -/
def s7single : EngineState := { cntrs := [targetC "example" "/host"] }

/-- One running target with one multi-path label (suffix db). -/
def tMulti : Cntr :=
  { id := "backupidm"
    labels := [("docker-backup-maestro.backup.name", "m"),
               ("docker-backup-maestro.backup.path.db", "/hostdb")]
    state := "running" }

def s7multi : EngineState := { cntrs := [tMulti] }

set_option maxRecDepth 100000 in
/-- Claim C7: multi-path labels each become host:bind_path/suffix and the
single-form label is used only when no multi-path label exists; but the
claimed exemption of the :ro suffix under config.always_rw holds only for
the multi-path form.  At the failing input (single-form label, always_rw
set, rw false) the source still appends :ro, because the single-form branch
tests only rw; the multi-path branch under the same config omits :ro; with
rw requested the single-form bind has no :ro. -/
theorem c7_singlepath_ignores_alwaysRw :
    (prepareBackuperConfigFor cmRw s7single "example" false).map Template.volumes
      = .ok ["/host:/data:ro"] ∧
    (prepareBackuperConfigFor cmRw s7multi "m" false).map Template.volumes
      = .ok ["/hostdb:/data/db"] ∧
    (prepareBackuperConfigFor cmA s7single "example" true).map Template.volumes
      = .ok ["/host:/data"] := by
  refine ⟨?_, ?_, ?_⟩ <;> decide

/-- A running target and its companion stopped (exited) with a stale stored
hash blah. -/
def s4 : EngineState :=
  { cntrs := [targetC "example" "/host", companionC "example" "blah" "exited"],
    images := [["alpine:latest"]] }

set_option maxRecDepth 100000 in
/-- Claim C4: the spec says updateBackuper, on hash mismatch, drops the
companion and re-creates it.  At the failing input, a stopped companion with
a stale hash, dropBackuper cannot find the companion (its lookup is
restricted to running containers), the companion survives, and createBackuper
finds it again (its lookup searches all states) and calls updateBackuper on
the same pair: the recursion never completes, for any amount of fuel, so the
companion is neither removed nor re-created. -/
theorem c4_update_stale_stopped_never_recreates (fuel : Nat) :
    (updateBackuper cmA s4 (targetC "example" "/host")
      (companionC "example" "blah" "exited") fuel).1 = .error outOfFuel := by
  have step1 : ∀ n : Nat,
      cuRun cmA (n + 1)
          (.update (targetC "example" "/host") (companionC "example" "blah" "exited")) s4
        = (match cuRun cmA n (.create "example") s4 with
           | (r, s2, more) => (r, s2, ([] : List Call) ++ more)) := fun _ => rfl
  have step2 : ∀ n : Nat,
      cuRun cmA (n + 1) (.create "example") s4
        = cuRun cmA n
            (.update (targetC "example" "/host") (companionC "example" "blah" "exited")) s4 :=
    fun _ => rfl
  have key : ∀ n : Nat,
      (cuRun cmA n
          (.update (targetC "example" "/host") (companionC "example" "blah" "exited")) s4).1
        = .error outOfFuel ∧
      (cuRun cmA n (.create "example") s4).1 = .error outOfFuel := by
    intro n
    induction n with
    | zero => exact ⟨rfl, rfl⟩
    | succ n ih =>
      constructor
      · rw [step1 n]
        rcases h : cuRun cmA n (.create "example") s4 with ⟨r, s2, tr⟩
        have := ih.2
        rw [h] at this
        simpa using this
      · rw [step2 n]
        exact ih.1
  exact (key fuel).1

/-- Witness-style instance of C4 at concrete fuel. -/
theorem c4_update_stale_stopped_never_recreates_witness :
    (updateBackuper cmA s4 (targetC "example" "/host")
      (companionC "example" "blah" "exited") 3).1 = .error outOfFuel :=
  c4_update_stale_stopped_never_recreates 3

/-- A running target for example, a companion in the given container state,
the restore image cached. -/
def sC8 (st : String) : EngineState :=
  { cntrs := [targetC "example" "/host", companionC "example" "h0" st],
    images := [["restore:latest"]] }

set_option maxRecDepth 100000 in
/-- Claim C8: for a one-off restore run for example that completes
successfully, whatever the prior companion state: the run succeeds, the
companion is stopped before the one-off is created whenever it is up
(running, restarting or paused - the states the live lookup can see), and it
is started again at the end iff its state was running or restarting before
the run. -/
theorem c8_oneoff_stop_create_restart (st : String) :
    (oneOffContainerFromTmpl cmA (sC8 st) "example" cmA.tmpls.restore
        cmA.conf.restoreTag cmA.conf.restoreNameFormat).1 = .ok () ∧
    (oneOffContainerFromTmpl cmA (sC8 st) "example" cmA.tmpls.restore
        cmA.conf.restoreTag cmA.conf.restoreNameFormat).2.2 =
      (if listedState st then [Call.stop "backuperidexample"] else []) ++
      [Call.create "id:docker-backup-maestro.restore_example",
       Call.start "id:docker-backup-maestro.restore_example"] ++
      (if st == "running" || st == "restarting" then [Call.start "backuperidexample"]
       else []) := by
  by_cases h1 : st = "running"
  · subst h1; exact ⟨by decide, by decide⟩
  by_cases h2 : st = "restarting"
  · subst h2; exact ⟨by decide, by decide⟩
  by_cases h3 : st = "paused"
  · subst h3; exact ⟨by decide, by decide⟩
  have e1 : (st == "running") = false := beq_eq_false_iff_ne.mpr h1
  have e2 : (st == "restarting") = false := beq_eq_false_iff_ne.mpr h2
  have e3 : (st == "paused") = false := beq_eq_false_iff_ne.mpr h3
  have hls : listedState st = false := by simp [listedState, e1, e2, e3]
  have hlook : getContainerByLabelValue (sC8 st) cmA.labels.backuperName "example" false
      = .ok none := by
    simp only [getContainerByLabelValue, containersWithLabelKV, sC8, targetC, companionC,
               List.filter, hls, lookupL, cmA, NewContainerManager, prepareLabels,
               Bool.false_or, Bool.false_and, Bool.and_false]
    decide
  constructor
  · simp only [oneOffContainerFromTmpl, hlook]
    rfl
  · simp only [oneOffContainerFromTmpl, hlook, hls, e1, e2]
    rfl

/-- Witness instance of C8 at the running companion state. -/
theorem c8_oneoff_stop_create_restart_witness :
    (oneOffContainerFromTmpl cmA (sC8 "running") "example" cmA.tmpls.restore
        cmA.conf.restoreTag cmA.conf.restoreNameFormat).1 = .ok () ∧
    (oneOffContainerFromTmpl cmA (sC8 "running") "example" cmA.tmpls.restore
        cmA.conf.restoreTag cmA.conf.restoreNameFormat).2.2 =
      (if listedState "running" then [Call.stop "backuperidexample"] else []) ++
      [Call.create "id:docker-backup-maestro.restore_example",
       Call.start "id:docker-backup-maestro.restore_example"] ++
      (if "running" == "running" || "running" == "restarting"
       then [Call.start "backuperidexample"] else []) :=
  c8_oneoff_stop_create_restart "running"

/-- Claim C9: pullImage first normalizes the tag (append :latest when it has
no colon), then, unless force is set, succeeds without a pull when some image
summary lists the normalized tag among its repo tags; otherwise it issues
the pull and the decoded stream's first line with a non-empty error field
aborts with exactly that message (success and a cached image otherwise). -/
theorem c9_pull_normalize_cache_stream (tag : String) (force : Bool)
    (imgs : List (List String)) (lines : List PullLine) :
    pullImage { images := imgs, pullLines := lines } tag force =
      (let nt := if strContainsChar tag ':' then tag else tag ++ ":latest"
       if force = false ∧ imgs.any (fun summ => summ.contains nt) = true then
         (.ok (), { images := imgs, pullLines := lines }, [])
       else
         match firstPullError lines with
         | some e => (.error e, { images := imgs, pullLines := lines }, [.pull nt])
         | none => (.ok (), { images := imgs ++ [[nt]], pullLines := lines }, [.pull nt])) := by
  by_cases hf : force
  · subst hf
    simp only [pullImage]
    simp
  · have hf' : force = false := by simpa using hf
    subst hf'
    by_cases ha : imgs.any
        (fun summ => summ.contains
          (if strContainsChar tag ':' then tag else tag ++ ":latest")) = true
    · simp only [pullImage]
      simp [ha]
    · have ha' : imgs.any
          (fun summ => summ.contains
            (if strContainsChar tag ':' then tag else tag ++ ":latest")) = false := by
        simpa using ha
      simp only [pullImage]
      simp [ha']

/-- Witness instance of C9 at concrete inputs (cache hit, and an error line
aborting a forced pull). -/
theorem c9_pull_normalize_cache_stream_witness :
    pullImage { images := [["alpine:latest"]] } "alpine" false
      = (.ok (), { images := [["alpine:latest"]] }, []) ∧
    pullImage { images := [["alpine:latest"]], pullLines := [{ error := "boom" }] } "alpine" true
      = (.error "boom",
         { images := [["alpine:latest"]], pullLines := [{ error := "boom" }] },
         [.pull "alpine:latest"]) := by
  constructor
  · have h := c9_pull_normalize_cache_stream "alpine" false [["alpine:latest"]] []
    rw [h]
    decide
  · have h := c9_pull_normalize_cache_stream "alpine" true [["alpine:latest"]]
        [{ error := "boom" }]
    rw [h]
    decide

/-- Targets for C10: two distinct running containers both labeled backup
name a (ambiguous), one running container labeled b. -/
def tgtA1 : Cntr :=
  { id := "ba1"
    labels := [("docker-backup-maestro.backup.name", "a"),
               ("docker-backup-maestro.backup.path", "/a")]
    state := "running" }

def tgtA2 : Cntr :=
  { id := "ba2"
    labels := [("docker-backup-maestro.backup.name", "a"),
               ("docker-backup-maestro.backup.path", "/a")]
    state := "running" }

def tgtB : Cntr :=
  { id := "bb"
    labels := [("docker-backup-maestro.backup.name", "b"),
               ("docker-backup-maestro.backup.path", "/b")]
    state := "running" }

def compA : Cntr := companionC "a" "anyhash" "running"

/-- Duplicate targets a with a matched companion, plus an unmatched target
b: updateBackuper for a fails (ambiguous target lookup) but the loop
continues and b's companion is still created. -/
def s10a : EngineState :=
  { cntrs := [tgtA1, tgtA2, compA, tgtB], images := [["alpine:latest"]] }

/-- Two running companions named x (ambiguous) with no target x, plus an
unmatched target b: the dropBackuper error aborts before b is processed. -/
def compX1 : Cntr :=
  { id := "cx1", labels := [("docker-backup-maestro.backuper.name", "x")], state := "running" }

def compX2 : Cntr :=
  { id := "cx2", labels := [("docker-backup-maestro.backuper.name", "x")], state := "running" }

def s10b : EngineState :=
  { cntrs := [compX1, compX2, tgtB], images := [["alpine:latest"]] }

/-- Duplicate targets a with no companion, plus target b: the createBackuper
error aborts before b is processed. -/
def s10c : EngineState :=
  { cntrs := [tgtA1, tgtA2, tgtB], images := [["alpine:latest"]] }

set_option maxRecDepth 100000 in
/-- Claim C10: in initBackupers an updateBackuper error for a matched target
is discarded (the loop continues and the snapshot reconciliation still
succeeds, creating the companion of the later target b), whereas a
dropBackuper error or a createBackuper error aborts initBackupers
immediately with that error (no later target is processed, no call
issued). -/
theorem c10_initBackupers_error_flow :
    (updateBackuper cmA s10a tgtA1 compA 5).1
      = .error "containers with label docker-backup-maestro.backup.name=a more than 1: 2" ∧
    (initBackupers cmA s10a 5).1 = .ok () ∧
    (initBackupers cmA s10a 5).2.2
      = [.create "id:docker-backup-maestro.backup_b",
         .start "id:docker-backup-maestro.backup_b"] ∧
    initBackupers cmA s10b 5
      = (.error "containers with label docker-backup-maestro.backuper.name=x more than 1: 2",
         s10b, []) ∧
    initBackupers cmA s10c 5
      = (.error "containers with label docker-backup-maestro.backup.name=a more than 1: 2",
         s10c, []) := by
  refine ⟨?_, ?_, ?_, ?_, ?_⟩ <;> decide

end DBM
